import Mathlib

/-!
Shallow embedding of `djoser/views.py`: seven authentication HTTP endpoint
handlers (registration, login, password reset, set password, password reset
confirm, activation, set username) built on two mixins (`SendEmailViewMixin`,
`PostActionViewMixin`).  Framework collaborators (user model, token model,
template renderer, password hasher, token generator, uid codec) are modelled
as explicit parameters or, where the spec fixes their contract, as concrete
definitions marked as modelled from the spec.
-/

namespace Djoser

/-- The Django user model as used by the views: primary key, email, username
field, activity flag, password hash. -/
structure User where
  pk : Nat
  email : String
  username : String
  is_active : Bool
  password : String
deriving Repr, DecidableEq

/-- Django's `has_usable_password`: the stored hash does not carry the
unusable-password marker prefix `!`. -/
def User.has_usable_password (u : User) : Bool :=
  ! u.password.startsWith "!"

/-- A segment of a URL template string such as `#/activate/{uid}/{token}`:
either a literal piece or one of the placeholders `{uid}` / `{token}` that the
configured `ACTIVATION_URL` / `PASSWORD_RESET_CONFIRM_URL` templates use. -/
inductive UrlSeg where
  | lit (s : String)
  | uid
  | token
deriving Repr, DecidableEq

abbrev UrlTemplate := List UrlSeg

/-- Python `template.format(uid=uidStr, token=tokenStr)` for a URL template
made of literal pieces and the `{uid}` / `{token}` placeholders. -/
def formatUrl (t : UrlTemplate) (uidStr tokenStr : String) : String :=
  String.join (t.map fun s =>
    match s with
    | .lit s => s
    | .uid => uidStr
    | .token => tokenStr)

/-- The djoser settings the views read via `settings.get`. -/
structure Settings where
  DOMAIN : String
  SITE_NAME : String
  ACTIVATION_URL : UrlTemplate
  PASSWORD_RESET_CONFIRM_URL : UrlTemplate
  LOGIN_AFTER_REGISTRATION : Bool
  SEND_ACTIVATION_EMAIL : Bool
  LOGIN_AFTER_ACTIVATION : Bool
deriving Repr

/-- Serializer validation errors, as DRF reports them: field name mapped to a
list of error messages. -/
abbrev SerializerErrors := List (String × List String)

/-- The body of a DRF `Response`: no data at all (`Response(status=...)`),
a dict payload (`Response(data={...})`), or serializer errors
(`Response(data=serializer.errors)`). -/
inductive Body where
  | empty
  | dict (d : List (String × String))
  | errors (e : SerializerErrors)
deriving Repr, DecidableEq

/-- An HTTP response: status code and body. -/
structure Response where
  status : Nat
  body : Body
deriving Repr, DecidableEq

/-- `PostActionViewMixin.post`: run the view's serializer on the request data;
on success return the result of the view's `action` (which may read and write
server state `s` of type `σ`), otherwise answer 400 with the serializer's
errors and leave the state untouched. -/
def postActionPost {D V σ : Type} (validate : D → Except SerializerErrors V)
    (action : V → σ → Response × σ) (data : D) (s : σ) : Response × σ :=
  match validate data with
  | .ok v => action v s
  | .error e => ({ status := 400, body := .errors e }, s)

/-- C1: for a view built on `PostActionViewMixin`, if the serializer rejects
the request data the response is HTTP 400 carrying the serializer's errors,
the server state is unchanged and the view's `action` is never consulted
(the result is the same for any two actions); if the serializer accepts, the
response and state are exactly those produced by the view's `action`. -/
theorem postAction_spec {D V σ : Type} (validate : D → Except SerializerErrors V)
    (action action' : V → σ → Response × σ) (data : D) (s : σ) :
    (∀ e, validate data = .error e →
      postActionPost validate action data s = ({ status := 400, body := .errors e }, s) ∧
      postActionPost validate action data s = postActionPost validate action' data s) ∧
    (∀ v, validate data = .ok v →
      postActionPost validate action data s = action v s) := by
  constructor
  · intro e he
    simp [postActionPost, he]
  · intro v hv
    simp [postActionPost, hv]

/-- Witness for C1 at a concrete serializer, action and input: an invalid
payload yields 400 with the errors, a valid one the action's response. -/
theorem postAction_spec_witness :
    postActionPost (fun b : Bool => if b then .ok 0 else .error [("pw", ["bad"])])
      (fun _ _ => ({ status := 200, body := .empty }, (7 : Nat))) false 3 =
      ({ status := 400, body := .errors [("pw", ["bad"])] }, 3) := by
  have h := (postAction_spec (σ := Nat)
    (fun b : Bool => if b then .ok 0 else .error [("pw", ["bad"])])
    (fun _ _ => ({ status := 200, body := .empty }, (7 : Nat)))
    (fun _ _ => ({ status := 200, body := .empty }, (7 : Nat))) false 3).1
    [("pw", ["bad"])] (by simp)
  exact h.1

/-! ### Uid codec

`utils.encode_uid` / `utils.decode_uid` are imported by the views but their
module is not part of the sources here, so the codec is modelled from the
spec. -/

/-- Modelled from the spec: `force_bytes(pk)` — the user's primary key
rendered as its decimal digit string, as a list of byte values. -/
def natBytes (pk : Nat) : List Nat :=
  if pk = 0 then [48] else (Nat.digits 10 pk).reverse.map (fun d => 48 + d)

/-- Modelled from the spec: inverse of `natBytes` — parse a decimal digit
byte string back into the primary key. -/
def bytesToNat (bs : List Nat) : Nat :=
  Nat.ofDigits 10 ((bs.map (fun b => b - 48)).reverse)

/-- Base64: regroup a byte sequence (values `< 256`) into 6-bit values,
without padding (Django's `urlsafe_base64_encode` strips the `=` padding). -/
def toSextets : List Nat → List Nat
  | [] => []
  | [a] => [a / 4, a % 4 * 16]
  | [a, b] => [a / 4, a % 4 * 16 + b / 16, b % 16 * 4]
  | a :: b :: c :: rest =>
      a / 4 :: (a % 4 * 16 + b / 16) :: (b % 16 * 4 + c / 64) :: c % 64 :: toSextets rest

/-- Base64: regroup 6-bit values back into bytes, accepting the unpadded
remainder lengths 2 and 3 that `toSextets` produces. -/
def fromSextets : List Nat → List Nat
  | x :: y :: z :: w :: rest =>
      (x * 4 + y / 16) :: (y % 16 * 16 + z / 4) :: (z % 4 * 64 + w) :: fromSextets rest
  | [x, y] => [x * 4 + y / 16]
  | [x, y, z] => [x * 4 + y / 16, y % 16 * 16 + z / 4]
  | _ => []

/-- The URL-safe base64 alphabet (RFC 4648 section 5). -/
def b64Alphabet : List Char :=
  "ABCDEFGHIJKLMNOPQRSTUVWXYZabcdefghijklmnopqrstuvwxyz0123456789-_".data

/-- Character for a 6-bit value. -/
def sextetChar (n : Nat) : Char :=
  b64Alphabet.getD n 'A'

/-- 6-bit value of an alphabet character, `none` off the alphabet. -/
def charSextet (c : Char) : Option Nat :=
  b64Alphabet.indexOf? c

/-- Decode a character list through `charSextet`, failing if any character is
off the alphabet. -/
def decodeChars : List Char → Option (List Nat)
  | [] => some []
  | c :: cs =>
    match charSextet c, decodeChars cs with
    | some n, some ns => some (n :: ns)
    | _, _ => none

/-- Modelled from the spec: `utils.encode_uid` — the user's primary key
encoded as an unpadded URL-safe base64 string of its decimal byte string
(Django's `urlsafe_base64_encode(force_bytes(pk))`). -/
def encode_uid (pk : Nat) : String :=
  String.mk ((toSextets (natBytes pk)).map sextetChar)

/-- Modelled from the spec: `utils.decode_uid` — base64-decode the URL-safe
string and parse the decimal byte string, failing on malformed input. -/
def decode_uid (s : String) : Option Nat :=
  (decodeChars s.data).map (fun sx => bytesToNat (fromSextets sx))

theorem fromSextets_toSextets (bs : List Nat) (h : ∀ b ∈ bs, b < 256) :
    fromSextets (toSextets bs) = bs := by
  induction bs using toSextets.induct with
  | case1 => rfl
  | case2 a =>
    have ha : a < 256 := h a (by simp)
    simp only [toSextets, fromSextets, List.cons.injEq, and_true]
    omega
  | case3 a b =>
    have ha : a < 256 := h a (by simp)
    have hb : b < 256 := h b (by simp)
    simp only [toSextets, fromSextets, List.cons.injEq, and_true]
    omega
  | case4 a b c rest ih =>
    have ha : a < 256 := h a (by simp)
    have hb : b < 256 := h b (by simp)
    have hc : c < 256 := h c (by simp)
    simp only [toSextets, fromSextets, List.cons.injEq]
    exact ⟨by omega, by omega, by omega, ih (fun x hx => h x (by simp [hx]))⟩

theorem toSextets_lt (bs : List Nat) (h : ∀ b ∈ bs, b < 256) :
    ∀ x ∈ toSextets bs, x < 64 := by
  induction bs using toSextets.induct with
  | case1 => simp [toSextets]
  | case2 a =>
    have ha : a < 256 := h a (by simp)
    simp only [toSextets, List.mem_cons, List.not_mem_nil, or_false]
    rintro x (rfl | rfl) <;> omega
  | case3 a b =>
    have ha : a < 256 := h a (by simp)
    have hb : b < 256 := h b (by simp)
    simp only [toSextets, List.mem_cons, List.not_mem_nil, or_false]
    rintro x (rfl | rfl | rfl) <;> omega
  | case4 a b c rest ih =>
    have ha : a < 256 := h a (by simp)
    have hb : b < 256 := h b (by simp)
    have hc : c < 256 := h c (by simp)
    simp only [toSextets, List.mem_cons]
    rintro x (rfl | rfl | rfl | rfl | hx)
    · omega
    · omega
    · omega
    · omega
    · exact ih (fun y hy => h y (by simp [hy])) x hx

theorem charSextet_sextetChar : ∀ n < 64, charSextet (sextetChar n) = some n := by
  decide

theorem decodeChars_map_sextetChar (l : List Nat) (h : ∀ x ∈ l, x < 64) :
    decodeChars (l.map sextetChar) = some l := by
  induction l with
  | nil => rfl
  | cons a l ih =>
    have ha : a < 64 := h a (by simp)
    simp only [List.map_cons, decodeChars, charSextet_sextetChar a ha,
      ih (fun x hx => h x (by simp [hx]))]

theorem natBytes_lt (pk : Nat) : ∀ b ∈ natBytes pk, b < 256 := by
  intro b hb
  unfold natBytes at hb
  split at hb
  · simp at hb; omega
  · simp only [List.mem_map, List.mem_reverse] at hb
    obtain ⟨d, hd, rfl⟩ := hb
    have : d < 10 := Nat.digits_lt_base (by norm_num) hd
    omega

theorem bytesToNat_natBytes (pk : Nat) : bytesToNat (natBytes pk) = pk := by
  unfold bytesToNat natBytes
  split
  · subst pk
    simp [Nat.ofDigits]
  · simp only [List.map_map, List.reverse_reverse]
    have : ((fun b => b - 48) ∘ fun d => 48 + d) = id := by
      funext d; simp
    rw [List.map_reverse, this, List.map_id, List.reverse_reverse,
      Nat.ofDigits_digits]

/-- C6: the uid codec round-trips — decoding the URL-safe string produced by
encoding a user's primary key recovers the key. -/
theorem decode_encode_uid (pk : Nat) : decode_uid (encode_uid pk) = some pk := by
  unfold decode_uid encode_uid
  have hdata : (String.mk ((toSextets (natBytes pk)).map sextetChar)).data =
      (toSextets (natBytes pk)).map sextetChar := rfl
  rw [hdata, decodeChars_map_sextetChar _ (toSextets_lt _ (natBytes_lt pk))]
  simp [fromSextets_toSextets _ (natBytes_lt pk), bytesToNat_natBytes]

/-! ### Email sending (`SendEmailViewMixin`) -/

/-- Python's line boundary characters as recognised by `str.splitlines`:
LF, CR, VT, FF, FS, GS, RS, NEL, LINE SEPARATOR, PARAGRAPH SEPARATOR. -/
def isLineBoundary (c : Char) : Bool :=
  c.toNat == 0x0A || c.toNat == 0x0D || c.toNat == 0x0B || c.toNat == 0x0C ||
  c.toNat == 0x1C || c.toNat == 0x1D || c.toNat == 0x1E || c.toNat == 0x85 ||
  c.toNat == 0x2028 || c.toNat == 0x2029

/-- After a boundary character, the rest of the input to continue from: a
CRLF pair counts as a single line boundary, so a LF right after a CR is
consumed together with it. -/
def crlfRest (c : Char) (cs : List Char) : List Char :=
  if c.toNat == 0x0D && (cs.head?.map Char.toNat == some 0x0A) then cs.tail else cs

/-- Worker for Python `str.splitlines` (keepends false): `cur` is the
current line accumulated in reverse. -/
def splitlinesGo (cur : List Char) (l : List Char) : List (List Char) :=
  match cur, l with
  | cur, [] => if cur = [] then [] else [cur.reverse]
  | cur, c :: cs =>
    if isLineBoundary c then
      cur.reverse :: splitlinesGo [] (crlfRest c cs)
    else
      splitlinesGo (c :: cur) cs
termination_by l.length
decreasing_by
  · have h : (crlfRest c cs).length <= cs.length := by
      unfold crlfRest
      split
      · exact cs.length_tail ▸ Nat.sub_le _ _
      · exact Nat.le_refl _
    simpa using Nat.lt_succ_of_le h
  · simp

/-- Python `s.splitlines()` on the character list of `s`. -/
def pySplitlines (s : String) : List (List Char) :=
  splitlinesGo [] s.data

/-- A rendered outgoing email (`EmailMultiAlternatives(subject, body,
from_email, [to_email])`, plus any attached alternatives). -/
structure EmailMessage where
  subject : String
  body : String
  from_email : Option String
  recipients : List String
  alternatives : List (String × String)
deriving Repr, DecidableEq

/-- The template context `SendEmailViewMixin.get_email_context` builds. -/
structure EmailContext where
  user : User
  domain : String
  site_name : String
  url : String
  uid : String
  token : String
  protocol : String
deriving Repr, DecidableEq

/-- `SendEmailViewMixin.send_email`: render subject and body templates with
the context (the renderer is the framework's `loader.render_to_string`,
passed in as `render`), join the subject's lines, and build the message,
attaching an HTML alternative when an HTML template is given. -/
def SendEmailViewMixin.send_email (render : String → EmailContext → String)
    (to_email : String) (from_email : Option String) (context : EmailContext)
    (subject_template_name plain_body_template_name : String)
    (html_body_template_name : Option String) : EmailMessage :=
  let subject := render subject_template_name context
  let subject := String.mk (List.flatten (splitlinesGo [] subject.data))
  let body := render plain_body_template_name context
  let msg : EmailMessage :=
    { subject := subject, body := body, from_email := from_email,
      recipients := [to_email], alternatives := [] }
  match html_body_template_name with
  | some h => { msg with alternatives := [(render h context, "text/html")] }
  | none => msg

/-- `SendEmailViewMixin.get_email_context`: make a token for the user with the
view's token generator, encode the uid, format the `ACTIVATION_URL` template,
and assemble the context. -/
def SendEmailViewMixin.get_email_context (token_generator : User → String)
    (st : Settings) (requestIsSecure : Bool) (user : User) : EmailContext :=
  let token := token_generator user
  let uid := encode_uid user.pk
  let url := formatUrl st.ACTIVATION_URL uid token
  { user := user, domain := st.DOMAIN, site_name := st.SITE_NAME, url := url,
    uid := uid, token := token,
    protocol := if requestIsSecure then "https" else "http" }

/-- `RegistrationView.get_email_context`: the mixin's context with `url`
re-formatted from the `ACTIVATION_URL` template and the context's own
`uid` / `token` entries. -/
def RegistrationView.get_email_context (token_generator : User → String)
    (st : Settings) (requestIsSecure : Bool) (user : User) : EmailContext :=
  let ctx := SendEmailViewMixin.get_email_context token_generator st requestIsSecure user
  { ctx with url := formatUrl st.ACTIVATION_URL ctx.uid ctx.token }

/-- `PasswordResetView.get_email_context`: the mixin's context with `url`
re-formatted from the `PASSWORD_RESET_CONFIRM_URL` template and the context's
own `uid` / `token` entries. -/
def PasswordResetView.get_email_context (token_generator : User → String)
    (st : Settings) (requestIsSecure : Bool) (user : User) : EmailContext :=
  let ctx := SendEmailViewMixin.get_email_context token_generator st requestIsSecure user
  { ctx with url := formatUrl st.PASSWORD_RESET_CONFIRM_URL ctx.uid ctx.token }

/-- `RegistrationView.post_save`'s email branch: `send_email` with the
registration kwargs — the user's address, `DEFAULT_FROM_EMAIL`, the
registration context and the activation templates. -/
def RegistrationView.sendActivationEmail (render : String → EmailContext → String)
    (token_generator : User → String) (st : Settings) (requestIsSecure : Bool)
    (default_from_email : Option String) (user : User) : EmailMessage :=
  SendEmailViewMixin.send_email render user.email default_from_email
    (RegistrationView.get_email_context token_generator st requestIsSecure user)
    "activation_email_subject.txt" "activation_email_body.txt" none

/-- `PasswordResetView.post`'s per-user email: `send_email` with the
password-reset kwargs — the user's address, `DEFAULT_FROM_EMAIL`, the
password-reset context and the password-reset templates. -/
def PasswordResetView.sendResetEmail (render : String → EmailContext → String)
    (token_generator : User → String) (st : Settings) (requestIsSecure : Bool)
    (default_from_email : Option String) (user : User) : EmailMessage :=
  SendEmailViewMixin.send_email render user.email default_from_email
    (PasswordResetView.get_email_context token_generator st requestIsSecure user)
    "password_reset_email_subject.txt" "password_reset_email_body.txt" none

theorem splitlinesGo_no_boundary (cur l : List Char)
    (hcur : ∀ c ∈ cur, isLineBoundary c = false) :
    ∀ seg ∈ splitlinesGo cur l, ∀ c ∈ seg, isLineBoundary c = false := by
  induction cur, l using splitlinesGo.induct with
  | case1 =>
    intro seg hseg c hc
    rw [splitlinesGo] at hseg
    simp at hseg
  | case2 cur hne =>
    intro seg hseg c hc
    rw [splitlinesGo, if_neg hne] at hseg
    simp only [List.mem_singleton] at hseg
    subst hseg
    exact hcur c (List.mem_reverse.mp hc)
  | case3 cur c cs hb ih =>
    intro seg hseg x hx
    rw [splitlinesGo, if_pos hb] at hseg
    rcases List.mem_cons.mp hseg with rfl | hseg
    · exact hcur x (List.mem_reverse.mp hx)
    · exact ih (by simp) seg hseg x hx
  | case4 cur c cs hb ih =>
    intro seg hseg x hx
    rw [splitlinesGo, if_neg hb] at hseg
    refine ih ?_ seg hseg x hx
    intro y hy
    rcases List.mem_cons.mp hy with rfl | hy
    · exact Bool.eq_false_iff.mpr hb
    · exact hcur y hy

/-- C9: the subject line of every email built by `send_email` contains no
line boundary character — the rendered subject template is split into lines
and rejoined before the message is constructed. -/
theorem send_email_subject_no_newline (render : String → EmailContext → String)
    (to_email : String) (from_email : Option String) (context : EmailContext)
    (subject_template_name plain_body_template_name : String)
    (html_body_template_name : Option String) :
    (SendEmailViewMixin.send_email render to_email from_email context
        subject_template_name plain_body_template_name
        html_body_template_name).subject.data.all
      (fun c => ! isLineBoundary c) = true := by
  have hsub : (SendEmailViewMixin.send_email render to_email from_email context
      subject_template_name plain_body_template_name
      html_body_template_name).subject =
      String.mk (List.flatten (splitlinesGo []
        (render subject_template_name context).data)) := by
    unfold SendEmailViewMixin.send_email
    cases html_body_template_name <;> rfl
  rw [hsub]
  rw [List.all_eq_true]
  intro c hc
  have hc2 : c ∈ List.flatten (splitlinesGo []
      (render subject_template_name context).data) := hc
  obtain ⟨seg, hseg, hcseg⟩ := List.mem_flatten.mp hc2
  have := splitlinesGo_no_boundary [] (render subject_template_name context).data
    (by simp) seg hseg c hcseg
  simp [this]

/-- C2: for every user for whom an activation or password-reset email is
prepared, the context's `uid` is `encode_uid(user.pk)`, its `token` is the
view's token generator applied to the user, and the `url` is the configured
template formatted with that uid and token — `ACTIVATION_URL` for the
registration (activation) email, `PASSWORD_RESET_CONFIRM_URL` for the
password-reset email. -/
theorem email_link_templates (token_generator : User → String) (st : Settings)
    (requestIsSecure : Bool) (user : User) :
    (RegistrationView.get_email_context token_generator st requestIsSecure user).uid
        = encode_uid user.pk ∧
    (RegistrationView.get_email_context token_generator st requestIsSecure user).token
        = token_generator user ∧
    (RegistrationView.get_email_context token_generator st requestIsSecure user).url
        = formatUrl st.ACTIVATION_URL (encode_uid user.pk) (token_generator user) ∧
    (PasswordResetView.get_email_context token_generator st requestIsSecure user).uid
        = encode_uid user.pk ∧
    (PasswordResetView.get_email_context token_generator st requestIsSecure user).token
        = token_generator user ∧
    (PasswordResetView.get_email_context token_generator st requestIsSecure user).url
        = formatUrl st.PASSWORD_RESET_CONFIRM_URL (encode_uid user.pk) (token_generator user) :=
  ⟨rfl, rfl, rfl, rfl, rfl, rfl⟩

/-! ### Token generator

`default_token_generator` is Django's; the views only call `make_token`.
Its contract is modelled from the spec. -/

/-- Modelled from the spec: a short-lived, user-state-bound token as issued by
the external token generator (`default_token_generator`).  Abstracting the
HMAC construction, a token records the fingerprint of the user state it was
bound to (primary key and password hash) and its creation timestamp. -/
structure ResetToken where
  bound_pk : Nat
  bound_password : String
  made : Nat
deriving Repr, DecidableEq

/-- Modelled from the spec: `make_token(user)` at time `now` — a token bound
to the user's current state, stamped with `now`. -/
def make_token (user : User) (now : Nat) : ResetToken :=
  { bound_pk := user.pk, bound_password := user.password, made := now }

/-- Modelled from the spec: the opaque string form of an issued token, the
shape in which it travels through the email context. -/
def tokenString (t : ResetToken) : String :=
  toString t.bound_pk ++ "-" ++ toString t.made ++ "-" ++ t.bound_password

/-- Modelled from the spec: `check_token(user, token)` at time `now` with
lifetime `timeout` — the token must be bound to the user's current state and
its age must not exceed the lifetime. -/
def check_token (timeout : Nat) (user : User) (t : ResetToken) (now : Nat) : Bool :=
  t.bound_pk == user.pk && t.bound_password == user.password &&
    decide (now - t.made ≤ timeout)

/-- C5: the token placed in every activation / password-reset email context is
`make_token` of the very user the email is for, and the generator accepts a
token exactly for that user, with that user's state unchanged, within the
token's lifetime — and rejects it otherwise. -/
theorem token_state_bound (st : Settings) (requestIsSecure : Bool)
    (timeout t0 now : Nat) (user other : User) :
    (SendEmailViewMixin.get_email_context (fun u => tokenString (make_token u t0))
        st requestIsSecure user).token = tokenString (make_token user t0) ∧
    (RegistrationView.get_email_context (fun u => tokenString (make_token u t0))
        st requestIsSecure user).token = tokenString (make_token user t0) ∧
    (PasswordResetView.get_email_context (fun u => tokenString (make_token u t0))
        st requestIsSecure user).token = tokenString (make_token user t0) ∧
    (check_token timeout other (make_token user t0) now = true ↔
      (other.pk = user.pk ∧ other.password = user.password ∧ now - t0 ≤ timeout)) := by
  refine ⟨rfl, rfl, rfl, ?_⟩
  simp only [check_token, make_token, Bool.and_eq_true, beq_iff_eq,
    decide_eq_true_eq, and_assoc]
  constructor
  · rintro ⟨h1, h2, h3⟩
    exact ⟨h1.symm, h2.symm, h3⟩
  · rintro ⟨h1, h2, h3⟩
    exact ⟨h1.symm, h2.symm, h3⟩

/-! ### Bearer tokens (`rest_framework.authtoken.models.Token`) -/

/-- A DRF auth `Token` row: the owning user (a one-to-one relation) and the
opaque key. -/
structure AuthToken where
  user_id : Nat
  key : String
deriving Repr, DecidableEq

/-- The token table. -/
abbrev TokenStore := List AuthToken

/-- `Token.objects.get_or_create(user=u)`: return the user's existing token
row if there is one, otherwise insert a row keyed by a freshly generated
`fresh_key`.  The `Bool` is Django's `created` flag. -/
def getOrCreate (store : TokenStore) (user_id : Nat) (fresh_key : String) :
    AuthToken × Bool × TokenStore :=
  match store.find? (fun t => t.user_id == user_id) with
  | some t => (t, false, store)
  | none =>
    let t : AuthToken := { user_id := user_id, key := fresh_key }
    (t, true, store ++ [t])

/-- Modelled from the spec: `serializers.TokenSerializer(token).data` — the
serializers module is not among the sources; per the spec the bearer token is
the opaque credential returned to the client, serialized under its key. -/
def TokenSerializer.data (t : AuthToken) : List (String × String) :=
  [("auth_token", t.key)]

/-- `LoginView.action`: get or create the authenticated user's token and
answer 200 with its serialization. -/
def LoginView.action (store : TokenStore) (fresh_key : String) (user : User) :
    Response × TokenStore :=
  let r := getOrCreate store user.pk fresh_key
  ({ status := 200, body := .dict (TokenSerializer.data r.1) }, r.2.2)

/-- `RegistrationView.post_save`: when `LOGIN_AFTER_REGISTRATION` is set, get
or create the new user's token; when `SEND_ACTIVATION_EMAIL` is set, send the
activation email. -/
def RegistrationView.post_save (render : String → EmailContext → String)
    (token_generator : User → String) (st : Settings) (requestIsSecure : Bool)
    (default_from_email : Option String) (store : TokenStore) (fresh_key : String)
    (sent : List EmailMessage) (obj : User) : TokenStore × List EmailMessage :=
  let store := if st.LOGIN_AFTER_REGISTRATION
    then (getOrCreate store obj.pk fresh_key).2.2 else store
  let sent := if st.SEND_ACTIVATION_EMAIL
    then sent ++ [RegistrationView.sendActivationEmail render token_generator st
      requestIsSecure default_from_email obj]
    else sent
  (store, sent)

/-- `ActivationView.action`: set the user active and save; when
`LOGIN_AFTER_ACTIVATION` is set, get or create the user's token and answer
200 with its serialization, otherwise answer 200 with an empty dict. -/
def ActivationView.action (st : Settings) (store : TokenStore)
    (fresh_key : String) (user : User) : Response × User × TokenStore :=
  let user := { user with is_active := true }
  if st.LOGIN_AFTER_ACTIVATION then
    let r := getOrCreate store user.pk fresh_key
    ({ status := 200, body := .dict (TokenSerializer.data r.1) }, user, r.2.2)
  else
    ({ status := 200, body := .dict [] }, user, store)

/-- The one-to-one invariant of the token table: no two rows share a user. -/
def atMostOneTokenPerUser (store : TokenStore) : Prop :=
  store.Pairwise (fun a b => a.user_id ≠ b.user_id)

theorem getOrCreate_preserves (store : TokenStore) (user_id : Nat)
    (fresh_key : String) (h : atMostOneTokenPerUser store) :
    atMostOneTokenPerUser (getOrCreate store user_id fresh_key).2.2 := by
  unfold getOrCreate
  cases hf : store.find? (fun t => t.user_id == user_id) with
  | some t => exact h
  | none =>
    simp only [atMostOneTokenPerUser, List.pairwise_append]
    refine ⟨h, List.pairwise_singleton _ _, ?_⟩
    intro a ha b hb
    simp only [List.mem_singleton] at hb
    subst hb
    have := List.find?_eq_none.mp hf a ha
    simpa using this

theorem getOrCreate_existing (store : TokenStore) (fresh_key : String)
    (t : AuthToken) (h : atMostOneTokenPerUser store) (hmem : t ∈ store) :
    getOrCreate store t.user_id fresh_key = (t, false, store) := by
  unfold getOrCreate
  cases hf : store.find? (fun x => x.user_id == t.user_id) with
  | none =>
    have hself := List.find?_eq_none.mp hf t hmem
    simp at hself
  | some t2 =>
    have ht2 : t2 ∈ store := List.mem_of_find?_eq_some hf
    have heq : t2.user_id = t.user_id := by
      simpa using List.find?_some hf
    have : t2 = t := by
      by_contra hne
      exact absurd heq
        (List.Pairwise.forall (fun _ _ hab => Ne.symm hab) h ht2 hmem hne)
    subst this
    rfl

theorem getOrCreate_twice (store : TokenStore) (user_id : Nat) (k1 k2 : String) :
    getOrCreate (getOrCreate store user_id k1).2.2 user_id k2 =
      ((getOrCreate store user_id k1).1, false, (getOrCreate store user_id k1).2.2) := by
  cases hf : store.find? (fun t => t.user_id == user_id) with
  | some t => simp [getOrCreate, hf]
  | none => simp [getOrCreate, hf, List.find?_append, List.find?]

/-- A concrete user for witnesses. -/
def sampleUser : User :=
  { pk := 5, email := "a@x.io", username := "alice", is_active := true,
    password := "pbkdf2$h" }

/-- C3: the token table keeps at most one row per user across login,
registration (`LOGIN_AFTER_REGISTRATION`) and activation
(`LOGIN_AFTER_ACTIVATION`); when a user already has a token,
`get_or_create` hands back that row without creating a second one; and a
repeated login returns the same response and leaves the table unchanged. -/
theorem token_one_to_one (render : String → EmailContext → String)
    (token_generator : User → String) (st : Settings) (requestIsSecure : Bool)
    (default_from_email : Option String) (store : TokenStore)
    (fresh_key fresh_key2 : String) (sent : List EmailMessage) (user : User)
    (hinv : atMostOneTokenPerUser store) :
    atMostOneTokenPerUser (LoginView.action store fresh_key user).2 ∧
    atMostOneTokenPerUser (RegistrationView.post_save render token_generator st
      requestIsSecure default_from_email store fresh_key sent user).1 ∧
    atMostOneTokenPerUser (ActivationView.action st store fresh_key user).2.2 ∧
    (∀ t ∈ store, t.user_id = user.pk →
      getOrCreate store user.pk fresh_key = (t, false, store)) ∧
    LoginView.action (LoginView.action store fresh_key user).2 fresh_key2 user =
      LoginView.action store fresh_key user := by
  refine ⟨?_, ?_, ?_, ?_, ?_⟩
  · exact getOrCreate_preserves store user.pk fresh_key hinv
  · unfold RegistrationView.post_save
    split
    · exact getOrCreate_preserves store user.pk fresh_key hinv
    · exact hinv
  · unfold ActivationView.action
    split
    · exact getOrCreate_preserves store user.pk fresh_key hinv
    · exact hinv
  · intro t ht hts
    exact hts ▸ getOrCreate_existing store fresh_key t hinv ht
  · unfold LoginView.action
    rw [getOrCreate_twice]

/-- Witness for C3: with one existing token row for the user, logging in
twice returns the same response and the same table both times. -/
theorem token_one_to_one_witness :
    LoginView.action
        (LoginView.action [{ user_id := 5, key := "k0" }] "k1" sampleUser).2
        "k2" sampleUser =
      LoginView.action [{ user_id := 5, key := "k0" }] "k1" sampleUser :=
  (token_one_to_one (fun _ _ => "") (fun _ => "t")
    { DOMAIN := "", SITE_NAME := "", ACTIVATION_URL := [],
      PASSWORD_RESET_CONFIRM_URL := [], LOGIN_AFTER_REGISTRATION := true,
      SEND_ACTIVATION_EMAIL := true, LOGIN_AFTER_ACTIVATION := true }
    false none [{ user_id := 5, key := "k0" }] "k1" "k2" [] sampleUser
    (by simp [atMostOneTokenPerUser])).2.2.2.2

/-- C7: a login whose credentials validate is answered with HTTP 200 and the
serialization of the authenticated user's bearer token. -/
theorem login_responds_with_token {D : Type}
    (validate : D → Except SerializerErrors User) (store : TokenStore)
    (fresh_key : String) (data : D) (user : User)
    (h : validate data = .ok user) :
    ∃ tok : AuthToken, tok.user_id = user.pk ∧
      tok ∈ (postActionPost validate
        (fun u s => LoginView.action s fresh_key u) data store).2 ∧
      (postActionPost validate
        (fun u s => LoginView.action s fresh_key u) data store).1 =
        { status := 200, body := .dict (TokenSerializer.data tok) } := by
  simp only [postActionPost, h]
  unfold LoginView.action
  cases hf : store.find? (fun t => t.user_id == user.pk) with
  | some t =>
    refine ⟨t, ?_, ?_, ?_⟩
    · simpa using List.find?_some hf
    · simpa [getOrCreate, hf] using List.mem_of_find?_eq_some hf
    · simp [getOrCreate, hf]
  | none =>
    refine ⟨{ user_id := user.pk, key := fresh_key }, rfl, ?_, ?_⟩
    · simp [getOrCreate, hf]
    · simp [getOrCreate, hf]

/-- Witness for C7: a concrete successful login against an empty token table
yields 200 with the user's fresh token. -/
theorem login_responds_with_token_witness :
    ∃ tok : AuthToken, tok.user_id = sampleUser.pk ∧
      tok ∈ (postActionPost (fun _ : Unit => Except.ok sampleUser)
        (fun u s => LoginView.action s "k" u) () []).2 ∧
      (postActionPost (fun _ : Unit => Except.ok sampleUser)
        (fun u s => LoginView.action s "k" u) () []).1 =
        { status := 200, body := .dict (TokenSerializer.data tok) } :=
  login_responds_with_token (fun _ : Unit => Except.ok sampleUser) [] "k" ()
    sampleUser rfl

/-! ### Password reset (`PasswordResetView`) -/

/-- The payload of a valid password-reset serializer: the submitted email. -/
structure PasswordResetData where
  email : String
deriving Repr, DecidableEq

/-- `PasswordResetView.get_users`: active users whose email matches the
submitted address case-insensitively (`email__iexact`), narrowed to those
with a usable password. -/
def PasswordResetView.get_users (users : List User) (email : String) : List User :=
  (users.filter (fun u => u.email.toLower == email.toLower && u.is_active)).filter
    (fun u => u.has_usable_password)

/-- `PasswordResetView.post`: validate; on success send a reset email to every
user `get_users` yields and answer 200 with no body, otherwise answer 400
with the serializer's errors and send nothing. -/
def PasswordResetView.post {D : Type}
    (validate : D → Except SerializerErrors PasswordResetData)
    (render : String → EmailContext → String) (token_generator : User → String)
    (st : Settings) (requestIsSecure : Bool) (default_from_email : Option String)
    (users : List User) (data : D) : Response × List EmailMessage :=
  match validate data with
  | .ok pr =>
    ({ status := 200, body := .empty },
     (PasswordResetView.get_users users pr.email).map
       (PasswordResetView.sendResetEmail render token_generator st requestIsSecure
         default_from_email))
  | .error e => ({ status := 400, body := .errors e }, [])

/-- C4: a password-reset POST that passes validation is answered 200 whatever
the user table contains — in particular whether or not any account matches —
and the reset emails go exactly to the users matching the submitted email
case-insensitively that are active and have a usable password. -/
theorem password_reset_uniform {D : Type}
    (validate : D → Except SerializerErrors PasswordResetData)
    (render : String → EmailContext → String) (token_generator : User → String)
    (st : Settings) (requestIsSecure : Bool) (default_from_email : Option String)
    (users : List User) (data : D) (pr : PasswordResetData)
    (h : validate data = .ok pr) :
    (PasswordResetView.post validate render token_generator st requestIsSecure
        default_from_email users data).1 = { status := 200, body := .empty } ∧
    (PasswordResetView.post validate render token_generator st requestIsSecure
        default_from_email users data).2 =
      (users.filter (fun u =>
          (u.email.toLower == pr.email.toLower && u.is_active) &&
            u.has_usable_password)).map
        (PasswordResetView.sendResetEmail render token_generator st requestIsSecure
          default_from_email) := by
  simp only [PasswordResetView.post, h]
  refine ⟨trivial, ?_⟩
  unfold PasswordResetView.get_users
  rw [List.filter_filter]
  have hpred : ∀ u : User,
      (u.has_usable_password &&
        (u.email.toLower == pr.email.toLower && u.is_active)) =
      ((u.email.toLower == pr.email.toLower && u.is_active) &&
        u.has_usable_password) := by
    intro u
    rw [Bool.and_comm]
  simp only [hpred]

/-- Witness for C4: a concrete validated reset request against a table with
no matching account is still answered 200, with no email sent. -/
theorem password_reset_uniform_witness :
    (PasswordResetView.post (fun _ : Unit => Except.ok { email := "A@X.io" })
        (fun _ _ => "") (fun _ => "t")
        { DOMAIN := "", SITE_NAME := "", ACTIVATION_URL := [],
          PASSWORD_RESET_CONFIRM_URL := [], LOGIN_AFTER_REGISTRATION := false,
          SEND_ACTIVATION_EMAIL := false, LOGIN_AFTER_ACTIVATION := false }
        false none [] ()).1 = { status := 200, body := .empty } ∧
    (PasswordResetView.post (fun _ : Unit => Except.ok { email := "A@X.io" })
        (fun _ _ => "") (fun _ => "t")
        { DOMAIN := "", SITE_NAME := "", ACTIVATION_URL := [],
          PASSWORD_RESET_CONFIRM_URL := [], LOGIN_AFTER_REGISTRATION := false,
          SEND_ACTIVATION_EMAIL := false, LOGIN_AFTER_ACTIVATION := false }
        false none [] ()).2 =
      (([] : List User).filter (fun u =>
          (u.email.toLower == ("A@X.io").toLower && u.is_active) &&
            u.has_usable_password)).map
        (PasswordResetView.sendResetEmail (fun _ _ => "") (fun _ => "t")
          { DOMAIN := "", SITE_NAME := "", ACTIVATION_URL := [],
            PASSWORD_RESET_CONFIRM_URL := [], LOGIN_AFTER_REGISTRATION := false,
            SEND_ACTIVATION_EMAIL := false, LOGIN_AFTER_ACTIVATION := false }
          false none) :=
  password_reset_uniform (fun _ : Unit => Except.ok { email := "A@X.io" })
    (fun _ _ => "") (fun _ => "t")
    { DOMAIN := "", SITE_NAME := "", ACTIVATION_URL := [],
      PASSWORD_RESET_CONFIRM_URL := [], LOGIN_AFTER_REGISTRATION := false,
      SEND_ACTIVATION_EMAIL := false, LOGIN_AFTER_ACTIVATION := false }
    false none [] () { email := "A@X.io" } rfl

/-! ### Field-changing actions (`SetPasswordView`, `PasswordResetConfirmView`,
`SetUsernameView`) -/

/-- Django's `user.set_password(raw)`: store the hash of the raw password
(the hasher is the framework's, passed in). -/
def User.set_password (hasher : String → String) (u : User) (raw : String) : User :=
  { u with password := hasher raw }

/-- `SetPasswordView.action`: hash and store the new password on the
requesting user, save, answer 200 with no body. -/
def SetPasswordView.action (hasher : String → String) (request_user : User)
    (new_password : String) : Response × User :=
  ({ status := 200, body := .empty },
   request_user.set_password hasher new_password)

/-- `PasswordResetConfirmView.action`: hash and store the new password on the
serializer's user (identified by uid/token), save, answer 200 with no body. -/
def PasswordResetConfirmView.action (hasher : String → String)
    (serializer_user : User) (new_password : String) : Response × User :=
  ({ status := 200, body := .empty },
   serializer_user.set_password hasher new_password)

/-- `SetUsernameView.action`: set the username field of the requesting user to
the submitted value, save, answer 200 with no body. -/
def SetUsernameView.action (request_user : User) (new_username : String) :
    Response × User :=
  ({ status := 200, body := .empty }, { request_user with username := new_username })

/-- C8: each of the three field-changing actions answers 200 with an empty
body and changes only its target field — the password hash for the two
password actions, the username field for set-username — leaving every other
field of the user as it was. -/
theorem field_change_frame (hasher : String → String) (u : User)
    (new_password new_username : String) :
    (SetPasswordView.action hasher u new_password).1 = { status := 200, body := .empty } ∧
    (SetPasswordView.action hasher u new_password).2 =
      { u with password := hasher new_password } ∧
    (PasswordResetConfirmView.action hasher u new_password).1 =
      { status := 200, body := .empty } ∧
    (PasswordResetConfirmView.action hasher u new_password).2 =
      { u with password := hasher new_password } ∧
    (SetUsernameView.action u new_username).1 = { status := 200, body := .empty } ∧
    (SetUsernameView.action u new_username).2 = { u with username := new_username } :=
  ⟨rfl, rfl, rfl, rfl, rfl, rfl⟩

/-! ### Module structure -/

/-- The two shared mixins of the module. -/
inductive Mixin where
  | sendEmail
  | postAction
deriving Repr, DecidableEq

/-- The externally supplied generic view bases the handlers extend. -/
inductive ViewBase where
  | createAPIView
  | genericAPIView
deriving Repr, DecidableEq

/-- The HTTP endpoint handlers defined by the module. -/
inductive View where
  | registration
  | login
  | passwordReset
  | setPassword
  | passwordResetConfirm
  | activation
  | setUsername
deriving Repr, DecidableEq, Fintype

/-- The mixin each handler is composed from, per its base-class list. -/
def View.mixin : View → Mixin
  | .registration => .sendEmail
  | .passwordReset => .sendEmail
  | .login => .postAction
  | .setPassword => .postAction
  | .passwordResetConfirm => .postAction
  | .activation => .postAction
  | .setUsername => .postAction

/-- The generic view base each handler extends. -/
def View.base : View → ViewBase
  | .registration => .createAPIView
  | _ => .genericAPIView

/-- The handlers the module defines, in source order. -/
def moduleViews : List View :=
  [.registration, .login, .passwordReset, .setPassword,
   .passwordResetConfirm, .activation, .setUsername]

/-- C10: the module defines exactly the seven distinct endpoint handlers, each
composed from exactly one of the two shared mixins (the email-sending mixin
for registration and password reset, the post-and-validate mixin for the
other five) over an externally supplied generic view base. -/
theorem module_structure :
    moduleViews.length = 7 ∧ moduleViews.Nodup ∧ (∀ v : View, v ∈ moduleViews) ∧
    moduleViews.filter (fun v => v.mixin == Mixin.sendEmail) =
      [.registration, .passwordReset] ∧
    moduleViews.filter (fun v => v.mixin == Mixin.postAction) =
      [.login, .setPassword, .passwordResetConfirm, .activation, .setUsername] ∧
    (∀ v : View, v.base = .createAPIView ∨ v.base = .genericAPIView) := by
  refine ⟨rfl, by decide, by decide, rfl, rfl, by decide⟩

end Djoser
